import Mathlib

set_option linter.unusedVariables false
set_option maxRecDepth 100000

/-!
Verification of the `opl_plr.js` wrapper (src/main.c) against its specification.

The file under src/ is a 29-line adapter around the external Nuked OPL3
emulator: it holds one global `opl3_chip chip` and one global
`int16_t sample_buf[4]`, and exposes `opl3_reset`, `opl3_write`,
`opl3_render` and `opl3_buf_ptr` as thin forwarders.  The emulator core
(`opl3_chip`, `OPL3_Reset`, `OPL3_WriteRegBuffered`,
`OPL3_Generate4ChResampled`) is declared in `opl3.h` but its body is not
part of the repository, so it is modelled here from the specification,
while the wrapper itself is embedded directly from src/main.c.
-/

namespace Opl

/-- Modelled from the spec: envelope stage of one operator
(spec section 4.3: Attack, Decay, Sustain, Release, Off). -/
inductive EnvStage
  | attack
  | decay
  | sustain
  | release
  | off
  deriving DecidableEq

/-- Modelled from the spec: one operator of the missing emulator core
(spec section 3): a phase accumulator, the current envelope attenuation
(fixed point, 0 = loudest, `maxAtt` = silent) and the envelope stage.
The phase increment is derived lazily from the register file at each
tick, as spec section 2 allows. -/
structure Operator where
  phase : Nat
  atten : Nat
  stage : EnvStage
  deriving DecidableEq

/-- Modelled from the spec: the whole state of the missing emulator core
(`opl3_chip` of opl3.h).  `regs` is the register file (addresses
0x000-0x1FF, two banks, spec section 3), `ops` the operator bank
(36 operators), `samplePos` counts output samples produced since reset,
and `outRate` is the output sample rate established by a successful
reset (`none` before any reset, spec sections 4.5 and 7). -/
structure opl3_chip where
  regs : List Nat
  ops : List Operator
  samplePos : Nat
  outRate : Option Nat
  deriving DecidableEq

/-- Modelled from the spec: the error reported synchronously when reset
is given an invalid (zero) sample rate (spec section 7). -/
inductive ResetErr
  | badRate
  deriving DecidableEq

/-- Modelled from the spec: the error reported synchronously when render
is called before reset has established a valid sample rate
(spec sections 4.5 and 7). -/
inductive RenderErr
  | noRate
  deriving DecidableEq

/-- Maximum envelope attenuation (silent). -/
def maxAtt : Nat := 511

/-- Power-on state of one operator: envelope off, maximum attenuation. -/
def defaultOp : Operator := ⟨0, maxAtt, EnvStage.off⟩

/-- Power-on register file: all 512 register bytes zero. -/
def zeroRegs : List Nat := List.replicate 512 0

/-- Power-on operator bank: 36 operators, all off. -/
def freshOps : List Operator := List.replicate 36 defaultOp

/-- Chip state right after a successful reset at rate `r`:
all registers zero, all operators off (spec section 6: reset
reinitializes the chip to power-on defaults at the given rate). -/
def freshChip (r : Nat) : opl3_chip := ⟨zeroRegs, freshOps, 0, some r⟩

/-- The zero-initialized global `opl3_chip chip` of src/main.c line 9:
no sample rate has been established yet. -/
def initChip : opl3_chip := ⟨zeroRegs, freshOps, 0, none⟩

/-- Modelled from the spec: `OPL3_Reset` of the missing emulator core.
Spec section 6: `reset(sample_rate: integer>0)` reinitializes the chip to
power-on defaults; spec section 7: a zero sample rate is a precondition
violation reported synchronously, and the failed call leaves the prior
state unchanged (hence the `Except`: on error the caller keeps the old
chip value). -/
def OPL3_Reset (c : opl3_chip) (samplerate : Nat) : Except ResetErr opl3_chip :=
  if 0 < samplerate then Except.ok (freshChip samplerate)
  else Except.error ResetErr.badRate

/-- Channel index addressed by a key-on register
(0xB0-0xB8 in each of the two banks), if any. -/
def keyAddr (reg : Nat) : Option Nat :=
  if reg / 256 ≤ 1 ∧ 176 ≤ reg % 256 ∧ reg % 256 ≤ 184 then
    some (reg / 256 * 9 + (reg % 256 - 176))
  else none

/-- Update the operator at index `i` with `f`. -/
def updOp (i : Nat) (f : Operator → Operator) (l : List Operator) : List Operator :=
  l.set i (f (l.getD i defaultOp))

/-- Modelled from the spec: key-on transitions the envelope to attack and
resets the phase (spec section 4.2). -/
def keyOnOp (o : Operator) : Operator :=
  { o with stage := EnvStage.attack, phase := 0 }

/-- Modelled from the spec: key-off transitions the envelope to release
(spec section 4.2). -/
def keyOffOp (o : Operator) : Operator :=
  { o with stage := EnvStage.release }

/-- Modelled from the spec: edge-triggered key-on/key-off handling of a
register write (spec sections 4.1 and 4.2): when the stored key-on bit
(bit 5 of registers 0xB0-0xB8) changes, both operators of the addressed
channel transition; writing the same bit again is a no-op. -/
def keyEdge (reg old new : Nat) (c : opl3_chip) : opl3_chip :=
  match keyAddr reg with
  | none => c
  | some ch =>
    if old / 32 % 2 = new / 32 % 2 then c
    else if new / 32 % 2 = 1 then
      { c with ops := updOp (2 * ch + 1) keyOnOp (updOp (2 * ch) keyOnOp c.ops) }
    else
      { c with ops := updOp (2 * ch + 1) keyOffOp (updOp (2 * ch) keyOffOp c.ops) }

/-- Modelled from the spec: `OPL3_WriteRegBuffered` of the missing
emulator core.  Spec section 4.1: `write(address, value)` stores the byte
and immediately applies key-on/key-off transitions; addresses outside the
defined 0x000-0x1FF range are silently ignored, not errors (spec
sections 3 and 7).  The spec describes the write as an immediate store;
the queueing suggested by the C name is not described there. -/
def OPL3_WriteRegBuffered (c : opl3_chip) (reg data : Nat) : opl3_chip :=
  if reg < 512 then
    keyEdge reg (c.regs.getD reg 0) data { c with regs := c.regs.set reg data }
  else c

/-- Modelled from the spec: phase increment of the operators of channel
`ch`, derived from the stored frequency number (10 bits across registers
0xA0-0xA8 and 0xB0-0xB8) and block/octave (spec section 3).  The
per-operator multiplier/detune tables the spec defers to the hardware
reference are not reproduced here. -/
def incFor (regs : List Nat) (ch : Nat) : Nat :=
  (regs.getD (ch / 9 * 256 + 160 + ch % 9) 0 +
      regs.getD (ch / 9 * 256 + 176 + ch % 9) 0 % 4 * 256) *
    2 ^ (regs.getD (ch / 9 * 256 + 176 + ch % 9) 0 / 4 % 8)

/-- Modelled from the spec: one envelope tick (spec section 4.3): attack
approaches attenuation 0 exponentially, decay and release raise the
attenuation linearly, release ends at maximum attenuation entering Off.
The exact hardware rate tables the spec defers to the reference are
replaced by fixed model steps. -/
def tickEnv (o : Operator) : Operator :=
  match o.stage with
  | EnvStage.attack =>
    if o.atten = 0 then { o with stage := EnvStage.decay }
    else { o with atten := o.atten - (o.atten / 4 + 1) }
  | EnvStage.decay =>
    if 256 ≤ o.atten then { o with stage := EnvStage.sustain }
    else { o with atten := o.atten + 1 }
  | EnvStage.sustain => o
  | EnvStage.release =>
    if maxAtt ≤ o.atten then { o with stage := EnvStage.off, atten := maxAtt }
    else { o with atten := o.atten + 1 }
  | EnvStage.off => o

/-- Modelled from the spec: one sample tick of one operator: advance the
fixed-point phase accumulator by the channel's increment, then advance
the envelope (spec sections 4.2 and 4.5). -/
def tickOp (inc : Nat) (o : Operator) : Operator :=
  tickEnv { o with phase := (o.phase + inc) % 2 ^ 19 }

/-- Modelled from the spec: advance the whole operator bank by one sample
tick (spec section 4.5: ticks every operator's phase and envelope).
Operator `i` belongs to channel `i / 2`. -/
def tickOps (regs : List Nat) (ops : List Operator) : List Operator :=
  (List.range 36).map fun i => tickOp (incFor regs (i / 2)) (ops.getD i defaultOp)

/-- Modelled from the spec: the waveform value at a phase (spec
section 4.2); the hardware waveform tables are replaced by a fixed signed
ramp, which is zero only by coincidence of phase. -/
def wavOf (p : Nat) : Int := (p % 1024 : Int) - 512

/-- Modelled from the spec: output of one operator for the current tick:
`waveform(phase)` scaled by the envelope gain; an operator whose envelope
is Off contributes nothing (spec section 4.2). -/
def opOut (o : Operator) : Int :=
  if o.stage = EnvStage.off then 0
  else wavOf o.phase * ((maxAtt - min o.atten maxAtt : Nat) : Int) / 512

/-- Modelled from the spec: contribution of channel `ch`: the sum of its
two operators' outputs (spec section 4.4; the serial-modulation and
feedback topologies the spec defers to the hardware algorithm tables are
modelled as parallel carriers). -/
def chOut (ops : List Operator) (ch : Nat) : Int :=
  opOut (ops.getD (2 * ch) defaultOp) + opOut (ops.getD (2 * ch + 1) defaultOp)

/-- Modelled from the spec: panning gate of channel `ch` for output bus
`b`, bits 4-7 of registers 0xC0-0xC8 (spec section 4.4: output routed to
left/right/auxiliary buses per channel panning flags). -/
def panBit (regs : List Nat) (ch b : Nat) : Nat :=
  regs.getD (ch / 9 * 256 + 192 + ch % 9) 0 / 2 ^ (4 + b) % 2

/-- Modelled from the spec: value of output bus `b`: the sum over the 18
channels of the gated channel outputs (spec section 4.5: sums bus
outputs into raw sample accumulators). -/
def busVal (regs : List Nat) (ops : List Operator) (b : Nat) : Int :=
  ((List.range 18).map fun ch => (panBit regs ch b : Int) * chOut ops ch).sum

/-- Clamp a raw accumulator value to the signed 16-bit output range. -/
def clamp16 (x : Int) : Int := max (-32768 : Int) (min 32767 x)

/-- Modelled from the spec: the mixed four-channel output frame of one
sample tick, one int16 value per output bus. -/
def frameOf (regs : List Nat) (ops : List Operator) : List Int :=
  [clamp16 (busVal regs ops 0), clamp16 (busVal regs ops 1),
    clamp16 (busVal regs ops 2), clamp16 (busVal regs ops 3)]

/-- Modelled from the spec: `OPL3_Generate4ChResampled` of the missing
emulator core: advances the chip by exactly one output sample and
produces the mixed four-channel frame (spec section 4.5).  Calling it
before a reset has established a valid sample rate is a precondition
violation reported synchronously (spec sections 4.5 and 7).  The
decimation filter between internal ticks and the output rate is the
spec's stated open question (section 9) and is modelled as one tick per
output sample. -/
def OPL3_Generate4ChResampled (c : opl3_chip) :
    Except RenderErr (opl3_chip × List Int) :=
  match c.outRate with
  | none => Except.error RenderErr.noRate
  | some _ =>
    Except.ok ({ c with ops := tickOps c.regs c.ops, samplePos := c.samplePos + 1 },
      frameOf c.regs (tickOps c.regs c.ops))

/-- The process-wide mutable state of src/main.c lines 8-9: the single
global `int16_t sample_buf[4]` and the single global `opl3_chip chip`. -/
structure WrapperState where
  sample_buf : List Int
  chip : opl3_chip
  deriving DecidableEq

/-- The zero-initialized globals at program start. -/
def initWrapper : WrapperState := ⟨[0, 0, 0, 0], initChip⟩

/-- src/main.c lines 11-14: `opl3_reset` forwards to
`OPL3_Reset(&chip, samplerate)`.  The C function returns void, so a
failed core reset (which leaves the chip unchanged) is not surfaced to
the wrapper's caller. -/
def opl3_reset (samplerate : Nat) (w : WrapperState) : WrapperState :=
  match OPL3_Reset w.chip samplerate with
  | Except.ok c => { w with chip := c }
  | Except.error _ => w

/-- src/main.c lines 16-19: `opl3_write` forwards to
`OPL3_WriteRegBuffered(&chip, reg, data)` with the full 16-bit register
address and 8-bit data passed through unmasked and unvalidated. -/
def opl3_write (reg data : Nat) (w : WrapperState) : WrapperState :=
  { w with chip := OPL3_WriteRegBuffered w.chip reg data }

/-- src/main.c lines 21-24: `opl3_render` forwards to
`OPL3_Generate4ChResampled(&chip, &sample_buf[0])`: the four-channel
frame is written into the global buffer; nothing is returned. -/
def opl3_render (w : WrapperState) : WrapperState :=
  match OPL3_Generate4ChResampled w.chip with
  | Except.ok (c, f) => ⟨f, c⟩
  | Except.error _ => w

/-- The one static location `opl3_buf_ptr` can denote:
the global `sample_buf` of src/main.c line 8. -/
inductive BufLoc
  | sampleBuf
  deriving DecidableEq

/-- src/main.c lines 26-29: `opl3_buf_ptr` returns the address of the
global `sample_buf` and touches no state. -/
def opl3_buf_ptr (w : WrapperState) : BufLoc × WrapperState :=
  (BufLoc.sampleBuf, w)

/-- Reading the buffer a `BufLoc` denotes in a given program state. -/
def readBuf (p : BufLoc) (w : WrapperState) : List Int :=
  match p with
  | BufLoc.sampleBuf => w.sample_buf

/-- One call to a wrapper entry point, with its arguments. -/
inductive Call
  | reset (rate : Nat)
  | write (reg data : Nat)
  | render
  deriving DecidableEq

/-- Effect of one wrapper call on the global state. -/
def applyCall (c : Call) (w : WrapperState) : WrapperState :=
  match c with
  | Call.reset r => opl3_reset r w
  | Call.write reg data => opl3_write reg data w
  | Call.render => opl3_render w

/-- Effect of a sequence of wrapper calls, first call first. -/
def runCalls (cs : List Call) (w : WrapperState) : WrapperState :=
  cs.foldl (fun s c => applyCall c s) w

/-- A valid sample rate has been established on the global chip. -/
def hasRate (w : WrapperState) : Prop := w.chip.outRate.isSome = true

/-- Well-formed chip: the register file and the operator bank have their
fixed power-on sizes (spec section 3: all entities are fixed-size,
pre-allocated at chip construction).  Every reachable chip state is
well-formed. -/
def Wf (c : opl3_chip) : Prop := c.regs.length = 512 ∧ c.ops.length = 36

instance (w : WrapperState) : Decidable (hasRate w) := by
  unfold hasRate
  infer_instance

instance (c : opl3_chip) : Decidable (Wf c) := by
  unfold Wf
  infer_instance

/-- One transition of the wrapper, as a step relation: each constructor
is one execution path of one entry point of src/main.c. -/
inductive WStep : WrapperState → Call → WrapperState → Prop
  | reset_ok (w : WrapperState) (r : Nat) (c : opl3_chip) :
      OPL3_Reset w.chip r = Except.ok c → WStep w (Call.reset r) { w with chip := c }
  | reset_err (w : WrapperState) (r : Nat) (e : ResetErr) :
      OPL3_Reset w.chip r = Except.error e → WStep w (Call.reset r) w
  | write_reg (w : WrapperState) (reg data : Nat) :
      WStep w (Call.write reg data) (opl3_write reg data w)
  | render_ok (w : WrapperState) (c : opl3_chip) (f : List Int) :
      OPL3_Generate4ChResampled w.chip = Except.ok (c, f) → WStep w Call.render ⟨f, c⟩
  | render_err (w : WrapperState) (e : RenderErr) :
      OPL3_Generate4ChResampled w.chip = Except.error e → WStep w Call.render w

/-- The samples a caller observes from one call: the contents of
`sample_buf` right after each render call, nothing otherwise. -/
def emitOf (c : Call) (w2 : WrapperState) : List (List Int) :=
  match c with
  | Call.render => [w2.sample_buf]
  | _ => []

/-- A run of the wrapper: a sequence of steps together with the sample
frames observed along the way. -/
inductive WRun : WrapperState → List Call → List (List Int) → WrapperState → Prop
  | nil (w : WrapperState) : WRun w [] [] w
  | cons (w w2 t : WrapperState) (c : Call) (cs : List Call)
      (os : List (List Int)) :
      WStep w c w2 → WRun w2 cs os t → WRun w (c :: cs) (emitOf c w2 ++ os) t

/-- A write never changes the register file through `keyEdge`. -/
theorem keyEdge_regs (reg old new : Nat) (c : opl3_chip) :
    (keyEdge reg old new c).regs = c.regs := by
  unfold keyEdge
  split
  · rfl
  · split
    · rfl
    · split <;> rfl

/-- `keyEdge` never changes the established sample rate. -/
theorem keyEdge_outRate (reg old new : Nat) (c : opl3_chip) :
    (keyEdge reg old new c).outRate = c.outRate := by
  unfold keyEdge
  split
  · rfl
  · split
    · rfl
    · split <;> rfl

/-- Writing the key bits already stored is a no-op on the operators. -/
theorem keyEdge_same (reg a : Nat) (c : opl3_chip) : keyEdge reg a a c = c := by
  unfold keyEdge
  split
  · rfl
  · simp

/-- A register write never changes the established sample rate. -/
theorem write_outRate (c : opl3_chip) (reg data : Nat) :
    (OPL3_WriteRegBuffered c reg data).outRate = c.outRate := by
  unfold OPL3_WriteRegBuffered
  by_cases h : reg < 512
  · simp only [h, if_true]
    rw [keyEdge_outRate]
  · simp [h]

/-- Reading back the element just stored with `List.set`. -/
theorem getD_set_self (l : List Nat) (i v : Nat) (h : i < l.length) :
    (l.set i v).getD i 0 = v := by
  induction l generalizing i with
  | nil => simp at h
  | cons a l ih =>
    cases i with
    | zero => rfl
    | succ n =>
      have hn : n < l.length := by
        simpa using Nat.lt_of_succ_lt_succ (by simpa using h)
      simpa using ih n hn

/-- Replacing the `regs` field by the value it already holds is the
identity. -/
theorem chip_set_regs_self (x : opl3_chip) (v : List Nat) (h : x.regs = v) :
    { x with regs := v } = x := by
  subst h
  rfl

/-- The core register write is idempotent on well-formed chips: the
second identical write stores the byte already present and sees no
key-on/key-off edge. -/
theorem writeReg_idem (c : opl3_chip) (reg data : Nat) (h : Wf c) :
    OPL3_WriteRegBuffered (OPL3_WriteRegBuffered c reg data) reg data =
      OPL3_WriteRegBuffered c reg data := by
  unfold OPL3_WriteRegBuffered
  by_cases hr : reg < 512
  · have hlen : reg < c.regs.length := by
      rw [h.1]
      exact hr
    simp only [if_pos hr, keyEdge_regs]
    rw [getD_set_self c.regs reg data hlen, List.set_set, keyEdge_same]
    exact chip_set_regs_self _ _ (by rw [keyEdge_regs])
  · simp only [if_neg hr]

/-- Claim C6: register writes are idempotent: performing the same write
twice in succession leaves the wrapper in exactly the state of
performing it once. -/
theorem c6_write_idem (w : WrapperState) (reg data : Nat) (h : Wf w.chip) :
    opl3_write reg data (opl3_write reg data w) = opl3_write reg data w := by
  show ({ w with chip :=
      OPL3_WriteRegBuffered (OPL3_WriteRegBuffered w.chip reg data) reg data } :
    WrapperState) = { w with chip := OPL3_WriteRegBuffered w.chip reg data }
  rw [writeReg_idem w.chip reg data h]

/-- Claim C6, witness: a key-on write (address 0xB0, value 0x20, an
edge that does change operator state) applied twice from the initial
state. -/
theorem c6_write_idem_at :
    opl3_write 176 32 (opl3_write 176 32 initWrapper) = opl3_write 176 32 initWrapper :=
  c6_write_idem initWrapper 176 32 (by decide)

/-- Render reports an error exactly when no sample rate is
established. -/
theorem genErr_iff (c : opl3_chip) :
    (∃ e, OPL3_Generate4ChResampled c = Except.error e) ↔ c.outRate = none := by
  unfold OPL3_Generate4ChResampled
  cases hr : c.outRate with
  | none => exact iff_of_true ⟨RenderErr.noRate, rfl⟩ rfl
  | some r => simp

/-- How one wrapper call affects whether a rate is established: only a
reset with a positive rate establishes one, and nothing ever clears
one. -/
theorem applyCall_rate (c : Call) (w : WrapperState) :
    (applyCall c w).chip.outRate = none ↔
      (w.chip.outRate = none ∧ ¬ ∃ r, 0 < r ∧ c = Call.reset r) := by
  cases c with
  | reset r =>
    have ha : applyCall (Call.reset r) w = opl3_reset r w := rfl
    rw [ha]
    unfold opl3_reset OPL3_Reset
    by_cases h : 0 < r
    · rw [if_pos h]
      simp [freshChip, h]
    · rw [if_neg h]
      simp [h]
  | write reg data =>
    have ha : applyCall (Call.write reg data) w = opl3_write reg data w := rfl
    rw [ha]
    simp [opl3_write, write_outRate]
  | render =>
    have ha : applyCall Call.render w = opl3_render w := rfl
    rw [ha]
    unfold opl3_render OPL3_Generate4ChResampled
    cases hr : w.chip.outRate with
    | none => simpa using hr
    | some r => simp [hr]

/-- A rate is missing after a run exactly when it was missing at the
start and no positive reset occurs in the run. -/
theorem runCalls_rate (cs : List Call) (w : WrapperState) :
    (runCalls cs w).chip.outRate = none ↔
      (w.chip.outRate = none ∧ ¬ ∃ r, 0 < r ∧ Call.reset r ∈ cs) := by
  induction cs generalizing w with
  | nil => simp [runCalls]
  | cons c cs ih =>
    have hstep : runCalls (c :: cs) w = runCalls cs (applyCall c w) := rfl
    rw [hstep, ih, applyCall_rate]
    constructor
    · rintro ⟨⟨h1, h2⟩, h3⟩
      refine ⟨h1, ?_⟩
      rintro ⟨r, hrp, hmem⟩
      rcases List.mem_cons.mp hmem with he | hm
      · exact h2 ⟨r, hrp, he.symm⟩
      · exact h3 ⟨r, hrp, hm⟩
    · rintro ⟨h1, h2⟩
      refine ⟨⟨h1, ?_⟩, ?_⟩
      · rintro ⟨r, hrp, he⟩
        exact h2 ⟨r, hrp, List.mem_cons.mpr (Or.inl he.symm)⟩
      · rintro ⟨r, hrp, hm⟩
        exact h2 ⟨r, hrp, List.mem_cons.mpr (Or.inr hm)⟩

/-- Claim C4: starting from program start, render fails (the failure is
the synchronously reported error value, never undefined output) exactly
when no reset with a valid sample rate has happened yet; once a reset
with a positive rate is in the call history, render never fails, no
matter what writes, renders or failed resets surround it. -/
theorem c4_render_fails_iff (cs : List Call) :
    (∃ e, OPL3_Generate4ChResampled (runCalls cs initWrapper).chip = Except.error e) ↔
      ¬ ∃ r, 0 < r ∧ Call.reset r ∈ cs := by
  rw [genErr_iff, runCalls_rate]
  simp [initWrapper, initChip]

/-- Claim C4, witness: before any call at all, render reports the
missing-rate error. -/
theorem c4_render_fails_before_reset :
    ∃ e, OPL3_Generate4ChResampled (runCalls [] initWrapper).chip = Except.error e :=
  (c4_render_fails_iff []).mpr (by simp)

/-- The wrapper step relation is deterministic at each single call. -/
theorem wstep_det (w : WrapperState) (c : Call) (t1 t2 : WrapperState)
    (h1 : WStep w c t1) (h2 : WStep w c t2) : t1 = t2 := by
  cases h1 <;> cases h2 <;> simp_all

/-- The step relation is total: every entry point always steps, and to
the state the embedded functions compute. -/
theorem wstep_applyCall (w : WrapperState) (c : Call) : WStep w c (applyCall c w) := by
  cases c with
  | reset r =>
    have ha : applyCall (Call.reset r) w = opl3_reset r w := rfl
    rw [ha]
    unfold opl3_reset
    cases hh : OPL3_Reset w.chip r with
    | ok c2 => exact WStep.reset_ok w r c2 hh
    | error e => exact WStep.reset_err w r e hh
  | write reg data => exact WStep.write_reg w reg data
  | render =>
    have ha : applyCall Call.render w = opl3_render w := rfl
    rw [ha]
    unfold opl3_render
    cases hh : OPL3_Generate4ChResampled w.chip with
    | ok p =>
      cases p with
      | mk c2 f => exact WStep.render_ok w c2 f hh
    | error e => exact WStep.render_err w e hh

/-- Claim C8: the wrapper is deterministic: two runs that start in the
same state and perform the identical sequence of calls with identical
arguments end in the same state and observe bit-identical sample
frame sequences. -/
theorem c8_deterministic (w : WrapperState) (cs : List Call) (o1 o2 : List (List Int))
    (t1 t2 : WrapperState) (h1 : WRun w cs o1 t1) (h2 : WRun w cs o2 t2) :
    t1 = t2 ∧ o1 = o2 := by
  revert h2
  induction h1 generalizing o2 t2 with
  | nil w0 =>
    intro h2
    cases h2
    exact ⟨rfl, rfl⟩
  | cons w0 w2 t c cs2 os hs hr ih =>
    intro h2
    cases h2 with
    | cons _ w2b _ _ _ osb hsb hrb =>
      have he : w2 = w2b := wstep_det w0 c w2 w2b hs hsb
      subst he
      have hx := ih osb t2 hrb
      exact ⟨hx.1, by rw [hx.2]⟩

/-- Claim C8, witness: two identical one-call runs from program start,
both derived explicitly, end in the same state. -/
theorem c8_deterministic_holds :
    (⟨[0, 0, 0, 0], freshChip 1⟩ : WrapperState) = ⟨[0, 0, 0, 0], freshChip 1⟩ := by
  have hok : OPL3_Reset initWrapper.chip 1 = Except.ok (freshChip 1) := rfl
  have hs : WStep initWrapper (Call.reset 1) (⟨[0, 0, 0, 0], freshChip 1⟩ : WrapperState) :=
    WStep.reset_ok initWrapper 1 (freshChip 1) hok
  have hd : WRun initWrapper [Call.reset 1] [] (⟨[0, 0, 0, 0], freshChip 1⟩ : WrapperState) :=
    WRun.cons initWrapper _ _ (Call.reset 1) [] [] hs (WRun.nil _)
  exact (c8_deterministic initWrapper [Call.reset 1] [] [] _ _ hd hd).1

/-- Claim C1, counterexample: the claim says render returns the mixed
frame to the caller as a pair (left, right).  At the concrete input
`reset 1` followed by one render, the wrapper instead fills the global
`sample_buf` with a four-channel frame (`OPL3_Generate4ChResampled`
writes `int16_t sample_buf[4]`) and `opl3_render` itself returns
nothing, so the frame delivered to the caller has 4 samples, not 2. -/
theorem c1_counterexample :
    (opl3_render (opl3_reset 1 initWrapper)).sample_buf.length = 4 ∧
    ¬ (opl3_render (opl3_reset 1 initWrapper)).sample_buf.length = 2 := by
  decide

/-- Claim C1, amended: once a valid sample rate is established,
`opl3_render` advances the chip by exactly one output sample and writes
the mixed four-channel frame (four int16 values, not a two-channel pair)
into `sample_buf`, from which the caller reads it. -/
theorem c1_render_one_sample (w : WrapperState) (h : hasRate w) :
    (opl3_render w).chip.samplePos = w.chip.samplePos + 1 ∧
    (opl3_render w).sample_buf = frameOf w.chip.regs (tickOps w.chip.regs w.chip.ops) ∧
    (opl3_render w).sample_buf.length = 4 := by
  unfold opl3_render OPL3_Generate4ChResampled
  cases hr : w.chip.outRate with
  | none =>
    unfold hasRate at h
    rw [hr] at h
    simp at h
  | some r => exact ⟨rfl, rfl, rfl⟩

/-- Claim C1, witness: the amended theorem applied after `reset 49716`. -/
theorem c1_render_one_sample_holds :
    (opl3_render (opl3_reset 49716 initWrapper)).chip.samplePos =
      (opl3_reset 49716 initWrapper).chip.samplePos + 1 :=
  (c1_render_one_sample (opl3_reset 49716 initWrapper) (by decide)).1

/-- Claim C2, counterexample: the claim says chip state is a
self-contained value per instance, not process-wide mutable state, so
independent clients never interfere.  The wrapper holds exactly one
process-wide chip (src/main.c line 9) behind every entry point, so a
second client calling `opl3_reset 2` after a first client's
`opl3_reset 1` mutates the very chip state the first client established:
the global state after the interleaved call differs from the state the
first client left. -/
theorem c2_counterexample :
    ¬ (opl3_reset 2 (opl3_reset 1 initWrapper)).chip = (opl3_reset 1 initWrapper).chip := by
  decide

/-- A wrapper call at the level of one emulator chip value. -/
def chipApply (c : Call) (ch : opl3_chip) : opl3_chip :=
  match c with
  | Call.reset r =>
    match OPL3_Reset ch r with
    | Except.ok c2 => c2
    | Except.error _ => ch
  | Call.write reg data => OPL3_WriteRegBuffered ch reg data
  | Call.render =>
    match OPL3_Generate4ChResampled ch with
    | Except.ok (c2, _) => c2
    | Except.error _ => ch

/-- A pool of two separately owned chip values, with a call applied to
the instance at index `i` only. -/
def stepAt (i : Fin 2) (c : Call) (p : Fin 2 → opl3_chip) : Fin 2 → opl3_chip :=
  Function.update p i (chipApply c (p i))

/-- Claim C2, amended: the emulator chip state itself is a
self-contained value, so two separately owned chip values never
interfere: applying any call to one instance of a two-instance pool
leaves the other instance unchanged.  The wrapper, however, owns a
single process-wide chip, so its callers all share one instance
(see the counterexample). -/
theorem c2_value_independent (i j : Fin 2) (c : Call) (p : Fin 2 → opl3_chip)
    (h : j ≠ i) : stepAt i c p j = p j := by
  unfold stepAt
  exact Function.update_noteq h _ _

/-- Claim C2, witness: the amended theorem at instances 0 and 1. -/
theorem c2_value_independent_holds :
    stepAt 0 (Call.reset 5) (fun _ => initChip) 1 = initChip :=
  c2_value_independent 0 1 (Call.reset 5) (fun _ => initChip) (by decide)

/-- Claim C3: reset succeeds exactly for positive sample rates; with
rate zero the core reports the error synchronously as the result of that
very call, and the failed reset leaves the prior state unchanged (the
wrapper state after `opl3_reset 0` is the prior state). -/
theorem c3_reset_validation (c : opl3_chip) (r : Nat) (w : WrapperState) :
    ((∃ c2, OPL3_Reset c r = Except.ok c2) ↔ 0 < r) ∧
    OPL3_Reset c 0 = Except.error ResetErr.badRate ∧
    opl3_reset 0 w = w := by
  refine ⟨?_, rfl, rfl⟩
  by_cases h : 0 < r <;> simp [OPL3_Reset, h]

/-- Claim C3, witness: the validation theorem at a concrete chip, rate
and wrapper state. -/
theorem c3_reset_validation_at_zero : opl3_reset 0 initWrapper = initWrapper :=
  (c3_reset_validation initChip 44100 initWrapper).2.2

/-- Claim C5: for every positive sample rate, reset followed by one
render with no register writes in between yields silence: the frame
written into `sample_buf` is all-zero in every one of the four output
channels, since no operator is active after reset. -/
theorem c5_reset_render_silence (r : Nat) (h : 0 < r) :
    (opl3_render (opl3_reset r initWrapper)).sample_buf = [0, 0, 0, 0] := by
  have h1 : opl3_reset r initWrapper = ⟨[0, 0, 0, 0], freshChip r⟩ := by
    unfold opl3_reset OPL3_Reset
    simp [h, initWrapper]
  rw [h1]
  show frameOf zeroRegs (tickOps zeroRegs freshOps) = [0, 0, 0, 0]
  decide

/-- Claim C5, witness: silence after reset at the hardware-native rate
49716. -/
theorem c5_reset_render_silence_at :
    (opl3_render (opl3_reset 49716 initWrapper)).sample_buf = [0, 0, 0, 0] :=
  c5_reset_render_silence 49716 (by decide)

/-- Claim C7: a write to any register address outside the defined
0x000-0x1FF range is a silent no-op: the core's write is total (there is
no error result to raise) and both the chip and the whole wrapper state
are left unchanged. -/
theorem c7_unmapped_write_noop (c : opl3_chip) (w : WrapperState) (reg data : Nat)
    (h : 512 ≤ reg) :
    OPL3_WriteRegBuffered c reg data = c ∧ opl3_write reg data w = w := by
  have hn : ¬ reg < 512 := Nat.not_lt.mpr h
  constructor
  · unfold OPL3_WriteRegBuffered
    rw [if_neg hn]
  · unfold opl3_write OPL3_WriteRegBuffered
    rw [if_neg hn]

/-- Claim C7, witness: the first unmapped address, 0x200, with the
largest byte value. -/
theorem c7_unmapped_write_noop_at : opl3_write 512 255 initWrapper = initWrapper :=
  (c7_unmapped_write_noop initChip initWrapper 512 255 (by decide)).2

/-- Claim C9: each wrapper entry point is a pure forwarder on the single
global chip: `opl3_reset r` applies `OPL3_Reset` to the global chip
(keeping the prior chip when the core reports an error), `opl3_write`
hands the full 16-bit register address and 8-bit data to
`OPL3_WriteRegBuffered` unmasked and unvalidated (the equation holds for
every address and value, including unmapped ones), and `opl3_render`
applies `OPL3_Generate4ChResampled`, storing the produced frame in
`sample_buf`. -/
theorem c9_forwarders (r reg data : Nat) (w : WrapperState) :
    opl3_reset r w = (match OPL3_Reset w.chip r with
      | Except.ok c => { w with chip := c }
      | Except.error _ => w) ∧
    opl3_write reg data w = { w with chip := OPL3_WriteRegBuffered w.chip reg data } ∧
    opl3_render w = (match OPL3_Generate4ChResampled w.chip with
      | Except.ok (c, f) => (⟨f, c⟩ : WrapperState)
      | Except.error _ => w) :=
  ⟨rfl, rfl, rfl⟩

/-- Claim C10: `opl3_buf_ptr` is pure and constant: in every program
state it returns the location of the global `sample_buf` and leaves the
state untouched; the location it returns is the same after any sequence
of reset/write/render calls, and dereferencing it reads exactly the
buffer `opl3_render` writes. -/
theorem c10_buf_ptr_constant (w : WrapperState) (cs : List Call) :
    opl3_buf_ptr w = (BufLoc.sampleBuf, w) ∧
    (opl3_buf_ptr (runCalls cs w)).1 = (opl3_buf_ptr w).1 ∧
    readBuf (opl3_buf_ptr w).1 w = w.sample_buf :=
  ⟨rfl, rfl, rfl⟩

end Opl
